import Mathlib

/-
Verification development for the feddit-sentiment-analysis service.

Shallow embedding conventions:
* Python datetimes are linearly ordered and datetime.fromtimestamp is strictly
  monotone, so every date comparison in the source is modelled on Int
  timestamps; parsed date bounds are likewise Int values.
* Float polarity scores are modelled as Rat: the source only ever compares
  polarities and never does float arithmetic on them, and every comparison of
  IEEE floats that the scorer can produce agrees with the rational comparison.
* The TextBlob polarity function, the md5 key derivation and the dateutil
  string parser are external black boxes and appear as function parameters.
* Exceptions are modelled with Except String; async calls are modelled as
  pure functions since each request is a single sequential task.
-/

namespace Feddit

/-! ## Data model (src/src/models/comment.py) -/

/-- Sentiment analysis result for a comment (class SentimentResult). -/
structure SentimentResult where
  polarity_score : Rat
  classification : String
deriving DecidableEq, Repr

/-- Base comment model from the Feddit API (class CommentBase). -/
structure CommentBase where
  id : String
  username : String
  text : String
  created_at : Int
deriving DecidableEq, Repr

/-- Comment with sentiment analysis results (class CommentWithSentiment). -/
structure CommentWithSentiment where
  id : String
  username : String
  text : String
  created_at : Int
  sentiment : SentimentResult
deriving DecidableEq, Repr

/-- Basic subfeddit information (class SubfedditInfo). -/
structure SubfedditInfo where
  id : String
  username : String
  title : String
  description : String
deriving DecidableEq, Repr

/-- Response model for the sentiment analysis endpoint
(class SentimentAnalysisResponse). -/
structure SentimentAnalysisResponse where
  subfeddit : String
  total_comments : Nat
  comments : List CommentWithSentiment
  subfeddit_info : Option SubfedditInfo
deriving DecidableEq, Repr

/-! ## Settings (src/src/config/settings.py) -/

/-- settings.default_comment_limit. -/
def default_comment_limit : Int := 25

/-- settings.max_comment_limit. -/
def max_comment_limit : Int := 100

/-- settings.cache_ttl_seconds. -/
def cache_ttl_seconds : Int := 3600

/-! ## Result cache (src/src/utils/cache.py)

The Python dict from key to (value, expiry_time) is modelled as an
association list with at most one entry per key at the call sites we use;
get evicts an expired entry on read, set replaces or appends. -/

/-- The underlying store of InMemoryCache: key, value, expiry instant. -/
abbrev Cache := List (String × SentimentResult × Int)

/-- InMemoryCache.get, returning the looked-up value and the store after the
lazy eviction of an expired entry (the Python method mutates the dict). -/
def cache_get : Cache → Int → String → Option SentimentResult × Cache
  | [], _, _ => (none, [])
  | (k, v, exp) :: rest, now, key =>
    if k = key then
      if exp < now then (none, rest)
      else (some v, (k, v, exp) :: rest)
    else
      let r := cache_get rest now key
      (r.1, (k, v, exp) :: r.2)

/-- InMemoryCache.set with explicit expiry instant (time.time() + ttl). -/
def cache_set : Cache → String → SentimentResult → Int → Cache
  | [], key, v, exp => [(key, v, exp)]
  | (k, w, e) :: rest, key, v, exp =>
    if k = key then (key, v, exp) :: rest
    else (k, w, e) :: cache_set rest key v exp

/-! ## Sentiment analyzer (src/src/sentiment/analyzer.py) -/

/-- SentimentAnalyzer.__classify_sentiment. -/
def classify_sentiment (polarity_score : Rat) : String :=
  if polarity_score >= 0 then "positive" else "negative"

/-- SentimentAnalyzer.analyze_text. `fn` is the black-box TextBlob polarity
function (error = raised exception), `key` the md5 key derivation, `now` the
current time and `ttl` the configured cache TTL. Returns the result and the
cache state after the call; the Python method never raises, which the total
return type reflects. -/
def analyze_text (fn : String → Except String Rat) (key : String → String)
    (now ttl : Int) (text : String) (cache : Cache) :
    SentimentResult × Cache :=
  let k := key text
  let looked := cache_get cache now k
  match looked.1 with
  | some cached => (cached, looked.2)
  | none =>
    match fn text with
    | Except.ok p =>
      let r : SentimentResult := ⟨p, classify_sentiment p⟩
      (r, cache_set looked.2 k r (now + ttl))
    | Except.error _ => (⟨0, "positive"⟩, looked.2)

/-- A key absent from the store makes cache_get a pure miss that leaves the
store unchanged. -/
theorem cache_get_of_not_mem (cache : Cache) (now : Int) (key : String)
    (h : ∀ entry ∈ cache, entry.1 ≠ key) :
    cache_get cache now key = (none, cache) := by
  induction cache with
  | nil => rfl
  | cons hd tl ih =>
    have hne : hd.1 ≠ key := h hd (List.mem_cons_self hd tl)
    have htl : ∀ entry ∈ tl, entry.1 ≠ key := fun e he => h e (List.mem_cons_of_mem hd he)
    obtain ⟨k, v, exp⟩ := hd
    simp only [cache_get, if_neg hne, ih htl]

/-! ## Claims C5, C6, C10 -/

/-- C5: for every polarity score p, the classification assigned by the
Sentiment Scorer is "positive" iff p is at least 0.0 and "negative"
otherwise; in particular p = 0.0 is classified "positive". -/
theorem claim_C5 (p : Rat) :
    (classify_sentiment p = "positive" ↔ 0 ≤ p)
      ∧ (classify_sentiment p = "negative" ↔ p < 0)
      ∧ classify_sentiment 0 = "positive" := by
  have hne : ("negative" : String) ≠ "positive" := by decide
  have hne2 : ("positive" : String) ≠ "negative" := by decide
  unfold classify_sentiment
  refine ⟨⟨?_, fun h => if_pos h⟩, ⟨?_, fun h => if_neg (not_le.mpr h)⟩, if_pos le_rfl⟩
  · intro hc
    by_contra hlt
    push_neg at hlt
    rw [if_neg (not_le.mpr hlt)] at hc
    exact hne hc
  · intro hc
    by_contra hge
    push_neg at hge
    rw [if_pos hge] at hc
    exact hne2 hc

/-- Witness for C5 at the concrete polarities 0 and -1/2. -/
theorem claim_C5_witness :
    classify_sentiment 0 = "positive"
      ∧ classify_sentiment (-(1 : Rat) / 2) = "negative" :=
  ⟨(claim_C5 0).1.mpr (by norm_num), (claim_C5 (-(1 : Rat) / 2)).2.1.mpr (by norm_num)⟩

/-- C6: for every input text, if the black-box polarity function raises (and
the cache lookup misses, which is when the function is invoked at all),
analyze_text does not propagate the exception and returns the fixed fallback
result with polarity 0.0 and classification "positive"; analyze_text never
raises, which the total (non-Except) return type of the embedding records. -/
theorem claim_C6 (fn : String → Except String Rat) (key : String → String)
    (now ttl : Int) (text : String) (cache : Cache) (err : String)
    (hmiss : (cache_get cache now (key text)).1 = none)
    (herr : fn text = Except.error err) :
    (analyze_text fn key now ttl text cache).1 = ⟨0, "positive"⟩ := by
  simp only [analyze_text, hmiss, herr]

/-- Witness for C6: a failing scorer on an empty cache yields the fallback. -/
theorem claim_C6_witness :
    (analyze_text (fun _ => Except.error "boom") (fun t => t) 0 3600 "hello" []).1
      = ⟨0, "positive"⟩ :=
  claim_C6 (fun _ => Except.error "boom") (fun t => t) 0 3600 "hello" [] "boom"
    (by rfl) (by rfl)

/-- C10: when the black-box polarity function fails for a text whose key is
not in the sentiment cache, analyze_text returns the fallback and leaves the
cache exactly unchanged (nothing is written), so a later call with the same
text and a succeeding scorer re-invokes the scorer, returns the freshly
computed score, and only then populates the cache. -/
theorem claim_C10 (fn fn2 : String → Except String Rat) (key : String → String)
    (now now2 ttl : Int) (text : String) (cache : Cache) (err : String) (p : Rat)
    (hnot : ∀ entry ∈ cache, entry.1 ≠ key text)
    (herr : fn text = Except.error err) :
    analyze_text fn key now ttl text cache = (⟨0, "positive"⟩, cache)
      ∧ (fn2 text = Except.ok p →
          analyze_text fn2 key now2 ttl text cache =
            (⟨p, classify_sentiment p⟩,
              cache_set cache (key text) ⟨p, classify_sentiment p⟩ (now2 + ttl))) := by
  constructor
  · simp only [analyze_text, cache_get_of_not_mem cache now (key text) hnot, herr]
  · intro hok
    simp only [analyze_text, cache_get_of_not_mem cache now2 (key text) hnot, hok]

/-- Witness for C10: failed analysis on a cache holding an unrelated key
leaves the cache unchanged, and a succeeding retry stores the real score. -/
theorem claim_C10_witness :
    analyze_text (fun _ => Except.error "boom") (fun t => t) 5 3600 "hi"
        [("other", ⟨1, "positive"⟩, 99)]
      = (⟨0, "positive"⟩, [("other", ⟨1, "positive"⟩, 99)])
      ∧ analyze_text (fun _ => Except.ok 1) (fun t => t) 7 3600 "hi"
          [("other", ⟨1, "positive"⟩, 99)]
        = (⟨1, classify_sentiment 1⟩,
            cache_set [("other", ⟨1, "positive"⟩, 99)] "hi" ⟨1, classify_sentiment 1⟩ (7 + 3600)) := by
  have h := claim_C10 (fun _ => Except.error "boom") (fun _ => Except.ok 1)
    (fun t => t) 5 7 3600 "hi" [("other", ⟨1, "positive"⟩, 99)] "boom" 1
    (by intro entry he; simp only [List.mem_singleton] at he; subst he; decide) (by rfl)
  exact ⟨h.1, h.2 (by rfl)⟩

/-! ## Parameter validation and date parsing
(src/src/services/sentiment_service.py) -/

/-- First step of SentimentService.__validate_parameters: default an absent
limit, clamp one above the maximum, reject a non-positive one (the checks in
the if/elif order of the source). -/
def validate_limit (limit : Option Int) : Except String Int :=
  match limit with
  | none => Except.ok default_comment_limit
  | some l =>
    if max_comment_limit < l then Except.ok max_comment_limit
    else if l ≤ 0 then Except.error "Limit must be greater than 0"
    else Except.ok l

/-- Second step of SentimentService.__validate_parameters: a present sort
order must be exactly "asc" or "desc". -/
def validate_sort (sort_order : Option String) : Except String Unit :=
  match sort_order with
  | none => Except.ok ()
  | some s =>
    if s = "asc" ∨ s = "desc" then Except.ok ()
    else Except.error "sort_order must be \x27asc\x27, \x27desc\x27, or None"

/-- SentimentService.__validate_parameters: process the limit (raising on a
bad one), then validate the sort order, then return the validated limit. -/
def validate_parameters (limit : Option Int) (sort_order : Option String) :
    Except String Int :=
  match validate_limit limit with
  | Except.error e => Except.error e
  | Except.ok validated_limit =>
    match validate_sort sort_order with
    | Except.error e => Except.error e
    | Except.ok _ => Except.ok validated_limit

/-- An absent limit validates to the configured default. -/
theorem validate_limit_none : validate_limit none = Except.ok 25 := rfl

/-- A non-positive limit is rejected. -/
theorem validate_limit_nonpos (l : Int) (h : l ≤ 0) :
    validate_limit (some l) = Except.error "Limit must be greater than 0" := by
  simp only [validate_limit]
  rw [if_neg (by unfold max_comment_limit; omega), if_pos h]

/-- A limit above the maximum is clamped to the maximum. -/
theorem validate_limit_clamp (l : Int) (h : 100 < l) :
    validate_limit (some l) = Except.ok 100 := by
  simp only [validate_limit]
  rw [if_pos (by unfold max_comment_limit; omega)]
  rfl

/-- A positive in-range limit is returned unchanged. -/
theorem validate_limit_in_range (l : Int) (h1 : 0 < l) (h2 : l ≤ 100) :
    validate_limit (some l) = Except.ok l := by
  simp only [validate_limit]
  rw [if_neg (by unfold max_comment_limit; omega), if_neg (by omega)]

/-- An absent sort order, "asc" and "desc" pass the sort-order check. -/
theorem validate_sort_ok (so : Option String)
    (hso : so = none ∨ so = some "asc" ∨ so = some "desc") :
    validate_sort so = Except.ok () := by
  rcases hso with rfl | rfl | rfl
  · rfl
  · simp [validate_sort]
  · simp [validate_sort]

/-- A present sort order other than "asc" or "desc" fails the check. -/
theorem validate_sort_bad (s : String) (h1 : s ≠ "asc") (h2 : s ≠ "desc") :
    validate_sort (some s)
      = Except.error "sort_order must be \x27asc\x27, \x27desc\x27, or None" := by
  simp only [validate_sort]
  rw [if_neg (by simp [h1, h2])]

/-- SentimentService._parse_date_parameters; `parseDate` is the external
dateutil parser (error = raised exception). An empty-string argument is falsy
in Python and is treated like an absent one. -/
def parse_date_parameters (parseDate : String → Except String Int)
    (start_date end_date : Option String) :
    Except String (Option Int × Option Int) :=
  match
    (match start_date with
     | none => Except.ok none
     | some s => if s.isEmpty then Except.ok none else (parseDate s).map some :
       Except String (Option Int)) with
  | Except.error e => Except.error ("Invalid date format: " ++ e)
  | Except.ok sd =>
    match
      (match end_date with
       | none => Except.ok none
       | some s => if s.isEmpty then Except.ok none else (parseDate s).map some :
         Except String (Option Int)) with
    | Except.error e => Except.error ("Invalid date format: " ++ e)
    | Except.ok ed => Except.ok (sd, ed)

/-! ## Sorting (SentimentService._sort_comments)

The Python builtin sorted is a stable sort; a stable sort by a total
preorder is extensionally unique, so the stable List.insertionSort is a
faithful model of sorted(comments, key, reverse). Stability of the model is
itself proved in claim C8. -/

/-- The comparison used for sort_order "desc": sorted(key, reverse=True)
puts greater polarity first. -/
def desc_rel (a b : CommentWithSentiment) : Prop :=
  b.sentiment.polarity_score ≤ a.sentiment.polarity_score

/-- The comparison used for any other sort order: ascending polarity. -/
def asc_rel (a b : CommentWithSentiment) : Prop :=
  a.sentiment.polarity_score ≤ b.sentiment.polarity_score

instance : DecidableRel desc_rel :=
  fun a b => inferInstanceAs (Decidable (b.sentiment.polarity_score ≤ a.sentiment.polarity_score))

instance : DecidableRel asc_rel :=
  fun a b => inferInstanceAs (Decidable (a.sentiment.polarity_score ≤ b.sentiment.polarity_score))

instance : IsTotal CommentWithSentiment desc_rel :=
  ⟨fun a b => le_total b.sentiment.polarity_score a.sentiment.polarity_score⟩

instance : IsTotal CommentWithSentiment asc_rel :=
  ⟨fun a b => le_total a.sentiment.polarity_score b.sentiment.polarity_score⟩

instance : IsTrans CommentWithSentiment desc_rel :=
  ⟨fun _u _v _w hab hbc => le_trans hbc hab⟩

instance : IsTrans CommentWithSentiment asc_rel :=
  ⟨fun _u _v _w hab hbc => le_trans hab hbc⟩

/-- Python str.lower restricted to the ASCII strings the validated sort
order can be (the source lowercases sort_order before comparing). -/
def py_lower (s : String) : String := String.mk (s.data.map Char.toLower)

/-- SentimentService._sort_comments: stable sort by polarity score,
descending when sort_order lowercases to "desc", ascending otherwise. -/
def sort_comments (comments : List CommentWithSentiment) (sort_order : String) :
    List CommentWithSentiment :=
  if py_lower sort_order = "desc" then List.insertionSort desc_rel comments
  else List.insertionSort asc_rel comments

/-- The sort step of analyze_subfeddit_sentiment: sort only when sort_order
is truthy (a present non-empty string; an empty string, though unreachable
past validation, is falsy in Python). -/
def apply_sort (comments : List CommentWithSentiment)
    (sort_order : Option String) : List CommentWithSentiment :=
  match sort_order with
  | some s => if s.isEmpty then comments else sort_comments comments s
  | none => comments

/-- A stable sort leaves each class of mutually related elements in its
original relative order: filtering the sorted list by a predicate whose
holders are pairwise related gives the filter of the input. -/
theorem filter_insertionSort_of_rel {α : Type} (r : α → α → Prop)
    [DecidableRel r] [IsTotal α r] [IsTrans α r]
    (l : List α) (p : α → Bool)
    (hp : ∀ a b, p a = true → p b = true → r a b) :
    (List.insertionSort r l).filter p = l.filter p := by
  have hpw : (l.filter p).Pairwise r :=
    List.pairwise_of_forall_mem_list fun a ha b hb =>
      hp a b (List.of_mem_filter ha) (List.of_mem_filter hb)
  have hsub : List.Sublist (l.filter p) (List.insertionSort r l) :=
    List.sublist_insertionSort hpw (List.filter_sublist l)
  have hsub2 : List.Sublist ((l.filter p).filter p)
      ((List.insertionSort r l).filter p) :=
    hsub.filter p
  have hself : (l.filter p).filter p = l.filter p := by
    simp [List.filter_filter]
  rw [hself] at hsub2
  have hlen : ((List.insertionSort r l).filter p).length = (l.filter p).length :=
    ((List.perm_insertionSort r l).filter p).length_eq
  exact (hsub2.eq_of_length hlen.symm).symm

/-- C7: limit validation defaults an absent limit to 25, silently clamps a
limit above the configured maximum (100) down to it, rejects a zero or
negative limit, and accepts a positive in-range limit unchanged; a present
sort_order other than exactly "asc" or "desc" always fails validation, while
an absent sort_order is accepted. -/
theorem claim_C7 :
    (∀ so : Option String, so = none ∨ so = some "asc" ∨ so = some "desc" →
      validate_parameters none so = Except.ok 25
        ∧ (∀ l : Int, l ≤ 0 →
            validate_parameters (some l) so = Except.error "Limit must be greater than 0")
        ∧ (∀ l : Int, 100 < l → validate_parameters (some l) so = Except.ok 100)
        ∧ (∀ l : Int, 0 < l → l ≤ 100 → validate_parameters (some l) so = Except.ok l))
      ∧ (∀ (lim : Option Int) (s : String), s ≠ "asc" → s ≠ "desc" →
          (validate_parameters lim (some s)).isOk = false) := by
  constructor
  · intro so hso
    refine ⟨?_, fun l hl => ?_, fun l hl => ?_, fun l hl1 hl2 => ?_⟩
    · simp only [validate_parameters, validate_limit_none, validate_sort_ok so hso]
    · simp only [validate_parameters, validate_limit_nonpos l hl]
    · simp only [validate_parameters, validate_limit_clamp l hl, validate_sort_ok so hso]
    · simp only [validate_parameters, validate_limit_in_range l hl1 hl2,
        validate_sort_ok so hso]
  · intro lim s hs1 hs2
    unfold validate_parameters
    cases h : validate_limit lim with
    | error e => rfl
    | ok v =>
      rw [validate_sort_bad s hs1 hs2]
      rfl

/-- Witness for C7 at the concrete parameter values named by the spec. -/
theorem claim_C7_witness :
    validate_parameters none none = Except.ok 25
      ∧ validate_parameters (some 0) (some "asc")
          = Except.error "Limit must be greater than 0"
      ∧ validate_parameters (some (-3)) none
          = Except.error "Limit must be greater than 0"
      ∧ validate_parameters (some 150) (some "desc") = Except.ok 100
      ∧ validate_parameters (some 7) none = Except.ok 7
      ∧ (validate_parameters (some 25) (some "invalid")).isOk = false := by
  obtain ⟨hvalid, hsort⟩ := claim_C7
  exact ⟨(hvalid none (Or.inl rfl)).1,
    (hvalid (some "asc") (Or.inr (Or.inl rfl))).2.1 0 (by omega),
    (hvalid none (Or.inl rfl)).2.1 (-3) (by omega),
    (hvalid (some "desc") (Or.inr (Or.inr rfl))).2.2.1 150 (by omega),
    (hvalid none (Or.inl rfl)).2.2.2 7 (by omega) (by omega),
    hsort (some 25) "invalid" (by decide) (by decide)⟩

/-! ## Claim C8 -/

/-- The comment with polarity score 0.2 from the example in the spec. -/
def ex_pos : CommentWithSentiment := ⟨"1", "u1", "t1", 10, ⟨0.2, "positive"⟩⟩

/-- The comment with polarity score 0.8 from the example in the spec. -/
def ex_top : CommentWithSentiment := ⟨"2", "u2", "t2", 20, ⟨0.8, "positive"⟩⟩

/-- The comment with polarity score -0.5 from the example in the spec. -/
def ex_neg : CommentWithSentiment := ⟨"3", "u3", "t3", 30, ⟨-0.5, "negative"⟩⟩

/-- C8: sorting with "desc" orders by polarity descending and with "asc"
ascending (both as a permutation of the input), ties keep their prior
relative order (each polarity class is left exactly in input order), an
absent sort_order leaves the list untouched, and on the example scores
[0.2, 0.8, -0.5] the orders are [0.8, 0.2, -0.5] for "desc" and
[-0.5, 0.2, 0.8] for "asc". -/
theorem claim_C8 (l : List CommentWithSentiment) :
    List.Sorted desc_rel (sort_comments l "desc")
      ∧ List.Sorted asc_rel (sort_comments l "asc")
      ∧ List.Perm (sort_comments l "desc") l
      ∧ List.Perm (sort_comments l "asc") l
      ∧ (∀ v : Rat,
          (sort_comments l "desc").filter
              (fun c => decide (c.sentiment.polarity_score = v))
            = l.filter (fun c => decide (c.sentiment.polarity_score = v))
          ∧ (sort_comments l "asc").filter
              (fun c => decide (c.sentiment.polarity_score = v))
            = l.filter (fun c => decide (c.sentiment.polarity_score = v)))
      ∧ apply_sort l none = l
      ∧ sort_comments [ex_pos, ex_top, ex_neg] "desc" = [ex_top, ex_pos, ex_neg]
      ∧ sort_comments [ex_pos, ex_top, ex_neg] "asc" = [ex_neg, ex_pos, ex_top] := by
  have hdesc : ∀ m : List CommentWithSentiment,
      sort_comments m "desc" = List.insertionSort desc_rel m := by
    intro m
    unfold sort_comments
    rw [if_pos (by decide)]
  have hasc : ∀ m : List CommentWithSentiment,
      sort_comments m "asc" = List.insertionSort asc_rel m := by
    intro m
    unfold sort_comments
    rw [if_neg (by decide)]
  refine ⟨?_, ?_, ?_, ?_, ?_, rfl, ?_, ?_⟩
  · rw [hdesc]
    exact List.sorted_insertionSort desc_rel l
  · rw [hasc]
    exact List.sorted_insertionSort asc_rel l
  · rw [hdesc]
    exact List.perm_insertionSort desc_rel l
  · rw [hasc]
    exact List.perm_insertionSort asc_rel l
  · intro v
    constructor
    · rw [hdesc]
      refine filter_insertionSort_of_rel desc_rel l _ ?_
      intro a b ha hb
      have ha2 : a.sentiment.polarity_score = v := of_decide_eq_true ha
      have hb2 : b.sentiment.polarity_score = v := of_decide_eq_true hb
      unfold desc_rel
      rw [ha2, hb2]
    · rw [hasc]
      refine filter_insertionSort_of_rel asc_rel l _ ?_
      intro a b ha hb
      have ha2 : a.sentiment.polarity_score = v := of_decide_eq_true ha
      have hb2 : b.sentiment.polarity_score = v := of_decide_eq_true hb
      unfold asc_rel
      rw [ha2, hb2]
  · rw [hdesc]
    norm_num [List.insertionSort, List.orderedInsert, desc_rel, ex_pos, ex_top, ex_neg]
  · rw [hasc]
    norm_num [List.insertionSort, List.orderedInsert, asc_rel, ex_pos, ex_top, ex_neg]

/-- Witness for C8 at the concrete three-comment example list. -/
theorem claim_C8_witness :
    apply_sort [ex_pos, ex_top, ex_neg] none = [ex_pos, ex_top, ex_neg]
      ∧ sort_comments [ex_pos, ex_top, ex_neg] "desc" = [ex_top, ex_pos, ex_neg] :=
  ⟨(claim_C8 [ex_pos, ex_top, ex_neg]).2.2.2.2.2.1,
    (claim_C8 [ex_pos, ex_top, ex_neg]).2.2.2.2.2.2.1⟩

/-! ## Date-aware pagination
(SentimentService._fetch_with_date_aware_pagination)

The upstream fetch is a parameter get : skip to batch (the windowed loop
always passes limit = batch_size = 100, so only the offset varies). The
while-True loop is embedded with explicit fuel because the skip-ahead branch
can loop as long as the upstream keeps producing batches: a none result
means the given fuel ran out before the loop exited. The first component of
a some result is the instrumentation trace of offsets actually fetched, in
order; the second is the accumulator as of loop exit (ok) or the re-raised
upstream error. -/

/-- The per-batch skip-ahead test and the per-comment lower-bound test of
the source: start_date is set and the date is strictly before it. -/
def too_old (start_date : Option Int) (d : Int) : Bool :=
  match start_date with
  | some s => decide (d < s)
  | none => false

/-- The per-batch stop test and the per-comment upper-bound test of the
source: end_date is set and the date is strictly after it. -/
def too_new (end_date : Option Int) (d : Int) : Bool :=
  match end_date with
  | some e => decide (e < d)
  | none => false

/-- The element-wise filter of the source loop: keep a comment unless it is
before a set start_date or after a set end_date. -/
def window_keep (start_date end_date : Option Int) (d : Int) : Bool :=
  !(too_old start_date d) && !(too_new end_date d)

/-- The window as the spec words it: start_date ≤ date ≤ end_date, an unset
bound imposing no constraint on its side. -/
def spec_window (start_date end_date : Option Int) (d : Int) : Bool :=
  (match start_date with
   | some s => decide (s ≤ d)
   | none => true)
    && (match end_date with
        | some e => decide (d ≤ e)
        | none => true)

/-- The filter the code applies is exactly the window the spec describes. -/
theorem window_keep_eq_spec_window (start_date end_date : Option Int) (d : Int) :
    window_keep start_date end_date d = spec_window start_date end_date d := by
  cases start_date <;> cases end_date <;>
    simp [window_keep, spec_window, too_old, too_new, ← decide_not, not_lt]

/-- The while-True loop of _fetch_with_date_aware_pagination. State: fuel,
the running offset skip, the accumulator all_matching_comments and the fetch
trace. Mirrors the source lines 201-280: upstream error breaks with the
partial accumulator when non-empty and re-raises otherwise; an empty batch
breaks; a batch entirely before start_date advances the offset by the batch
size and continues (without the safety check); a batch starting after
end_date breaks; otherwise the date filter extends the accumulator, a full
accumulator breaks, the offset advances, and an offset above 10000 breaks. -/
def paginate (get : Nat → Except String (List CommentBase))
    (start_date end_date : Option Int) (validated_limit : Nat) :
    Nat → Nat → List CommentBase → List Nat →
    Option (List Nat × Except String (List CommentBase))
  | 0, _, _, _ => none
  | fuel + 1, skip, acc, fetched =>
    match get skip with
    | Except.error e =>
      if acc.isEmpty then some (fetched ++ [skip], Except.error e)
      else some (fetched ++ [skip], Except.ok acc)
    | Except.ok [] => some (fetched ++ [skip], Except.ok acc)
    | Except.ok (c :: cs) =>
      if too_old start_date (cs.getLastD c).created_at then
        paginate get start_date end_date validated_limit fuel (skip + 100) acc
          (fetched ++ [skip])
      else if too_new end_date c.created_at then
        some (fetched ++ [skip], Except.ok acc)
      else
        if validated_limit ≤
            (acc ++ (c :: cs).filter
              (fun cc => window_keep start_date end_date cc.created_at)).length then
          some (fetched ++ [skip],
            Except.ok (acc ++ (c :: cs).filter
              (fun cc => window_keep start_date end_date cc.created_at)))
        else if 10000 < skip + 100 then
          some (fetched ++ [skip],
            Except.ok (acc ++ (c :: cs).filter
              (fun cc => window_keep start_date end_date cc.created_at)))
        else
          paginate get start_date end_date validated_limit fuel (skip + 100)
            (acc ++ (c :: cs).filter
              (fun cc => window_keep start_date end_date cc.created_at))
            (fetched ++ [skip])

/-- SentimentService._analyze_comments_sentiment: score every comment in
order via the Sentiment Scorer, threading the scorer cache. -/
def analyze_comments_sentiment (fn : String → Except String Rat)
    (key : String → String) (now ttl : Int) :
    List CommentBase → Cache → List CommentWithSentiment × Cache
  | [], cache => ([], cache)
  | c :: cs, cache =>
    let rc := analyze_text fn key now ttl c.text cache
    let rest := analyze_comments_sentiment fn key now ttl cs rc.2
    (⟨c.id, c.username, c.text, c.created_at, rc.1⟩ :: rest.1, rest.2)

/-- SentimentService._fetch_with_date_aware_pagination: run the loop from
offset 0 with an empty accumulator, then apply the final limit and score
the surviving comments. -/
def fetch_with_date_aware_pagination (get : Nat → Except String (List CommentBase))
    (start_date end_date : Option Int) (validated_limit : Nat)
    (fn : String → Except String Rat) (key : String → String) (now ttl : Int)
    (cache : Cache) (fuel : Nat) :
    Option (List Nat × Except String (List CommentWithSentiment × Cache)) :=
  match paginate get start_date end_date validated_limit fuel 0 [] [] with
  | none => none
  | some (tr, Except.error e) => some (tr, Except.error e)
  | some (tr, Except.ok acc) =>
    some (tr, Except.ok (analyze_comments_sentiment fn key now ttl
      (acc.take validated_limit) cache))

/-- Scoring a list of comments preserves its length. -/
theorem analyze_comments_sentiment_length (fn : String → Except String Rat)
    (key : String → String) (now ttl : Int) (cs : List CommentBase) (cache : Cache) :
    (analyze_comments_sentiment fn key now ttl cs cache).1.length = cs.length := by
  induction cs generalizing cache with
  | nil => rfl
  | cons c rest ih => simp [analyze_comments_sentiment, ih]

/-- One loop step on an upstream error: break with the partial accumulator
when non-empty, re-raise otherwise. -/
theorem paginate_step_error (get : Nat → Except String (List CommentBase))
    (start_date end_date : Option Int) (validated_limit fuel skip : Nat)
    (acc : List CommentBase) (fetched : List Nat) (e : String)
    (hget : get skip = Except.error e) :
    paginate get start_date end_date validated_limit (fuel + 1) skip acc fetched
      = some (fetched ++ [skip],
          if acc.isEmpty then Except.error e else Except.ok acc) := by
  simp only [paginate, hget]
  by_cases h : acc.isEmpty <;> simp [h]

/-- One loop step on an empty batch: break with the accumulator. -/
theorem paginate_step_empty (get : Nat → Except String (List CommentBase))
    (start_date end_date : Option Int) (validated_limit fuel skip : Nat)
    (acc : List CommentBase) (fetched : List Nat)
    (hget : get skip = Except.ok []) :
    paginate get start_date end_date validated_limit (fuel + 1) skip acc fetched
      = some (fetched ++ [skip], Except.ok acc) := by
  simp only [paginate, hget]

/-- One loop step on a batch entirely before start_date: skip ahead by the
batch size without touching the accumulator (and without the safety check). -/
theorem paginate_step_skip (get : Nat → Except String (List CommentBase))
    (start_date end_date : Option Int) (validated_limit fuel skip : Nat)
    (acc : List CommentBase) (fetched : List Nat)
    (c : CommentBase) (cs : List CommentBase)
    (hget : get skip = Except.ok (c :: cs))
    (hold : too_old start_date (cs.getLastD c).created_at = true) :
    paginate get start_date end_date validated_limit (fuel + 1) skip acc fetched
      = paginate get start_date end_date validated_limit fuel (skip + 100) acc
          (fetched ++ [skip]) := by
  simp only [paginate, hget]
  rw [if_pos hold]

/-- One loop step on a batch starting after end_date: break with the
accumulator unchanged. -/
theorem paginate_step_stop (get : Nat → Except String (List CommentBase))
    (start_date end_date : Option Int) (validated_limit fuel skip : Nat)
    (acc : List CommentBase) (fetched : List Nat)
    (c : CommentBase) (cs : List CommentBase)
    (hget : get skip = Except.ok (c :: cs))
    (hold : too_old start_date (cs.getLastD c).created_at = false)
    (hnew : too_new end_date c.created_at = true) :
    paginate get start_date end_date validated_limit (fuel + 1) skip acc fetched
      = some (fetched ++ [skip], Except.ok acc) := by
  simp only [paginate, hget]
  rw [if_neg (by rw [hold]; simp), if_pos hnew]

/-- One loop step on a batch overlapping the window: extend the accumulator
by the date filter of the batch, then break when full, break past the safety
bound, or continue at the next offset. -/
theorem paginate_step_filter (get : Nat → Except String (List CommentBase))
    (start_date end_date : Option Int) (validated_limit fuel skip : Nat)
    (acc : List CommentBase) (fetched : List Nat)
    (c : CommentBase) (cs : List CommentBase)
    (hget : get skip = Except.ok (c :: cs))
    (hold : too_old start_date (cs.getLastD c).created_at = false)
    (hnew : too_new end_date c.created_at = false) :
    paginate get start_date end_date validated_limit (fuel + 1) skip acc fetched
      = (if validated_limit ≤ (acc ++ (c :: cs).filter
            (fun cc => window_keep start_date end_date cc.created_at)).length then
          some (fetched ++ [skip], Except.ok (acc ++ (c :: cs).filter
            (fun cc => window_keep start_date end_date cc.created_at)))
        else if 10000 < skip + 100 then
          some (fetched ++ [skip], Except.ok (acc ++ (c :: cs).filter
            (fun cc => window_keep start_date end_date cc.created_at)))
        else paginate get start_date end_date validated_limit fuel (skip + 100)
            (acc ++ (c :: cs).filter
              (fun cc => window_keep start_date end_date cc.created_at))
            (fetched ++ [skip])) := by
  simp only [paginate, hget]
  rw [if_neg (by rw [hold]; simp), if_neg (by rw [hnew]; simp)]

/-- A date inside the spec window is not before a set start_date. -/
theorem spec_window_not_too_old (start_date end_date : Option Int) (d : Int)
    (h : spec_window start_date end_date d = true) :
    too_old start_date d = false := by
  cases start_date <;> cases end_date <;>
    simp [spec_window, too_old] at h ⊢ <;> omega

/-- A date inside the spec window is not after a set end_date. -/
theorem spec_window_not_too_new (start_date end_date : Option Int) (d : Int)
    (h : spec_window start_date end_date d = true) :
    too_new end_date d = false := by
  cases start_date <;> cases end_date <;>
    simp [spec_window, too_new] at h ⊢ <;> omega

/-- C2: for a non-empty fetched batch in the windowed path: if start_date is
set and the last comment of the batch is dated strictly before it, the whole
batch is skipped (the offset advances by the batch size 100 and nothing is
accumulated); otherwise if end_date is set and the first comment is dated
strictly after it, the loop stops at once with the accumulator unchanged and
no further fetch; otherwise exactly the comments satisfying
start_date ≤ date ≤ end_date (an unset bound unconstrained) are appended to
the accumulator in batch order. -/
theorem claim_C2 (get : Nat → Except String (List CommentBase))
    (start_date end_date : Option Int) (validated_limit fuel skip : Nat)
    (acc : List CommentBase) (fetched : List Nat)
    (c : CommentBase) (cs : List CommentBase)
    (hget : get skip = Except.ok (c :: cs)) :
    (∀ s : Int, start_date = some s → (cs.getLastD c).created_at < s →
        paginate get start_date end_date validated_limit (fuel + 1) skip acc fetched
          = paginate get start_date end_date validated_limit fuel (skip + 100) acc
              (fetched ++ [skip]))
      ∧ (∀ e : Int, too_old start_date (cs.getLastD c).created_at = false →
          end_date = some e → e < c.created_at →
          paginate get start_date end_date validated_limit (fuel + 1) skip acc fetched
            = some (fetched ++ [skip], Except.ok acc))
      ∧ (too_old start_date (cs.getLastD c).created_at = false →
          too_new end_date c.created_at = false →
          paginate get start_date end_date validated_limit (fuel + 1) skip acc fetched
            = (if validated_limit ≤ (acc ++ (c :: cs).filter
                  (fun cc => spec_window start_date end_date cc.created_at)).length then
                some (fetched ++ [skip], Except.ok (acc ++ (c :: cs).filter
                  (fun cc => spec_window start_date end_date cc.created_at)))
              else if 10000 < skip + 100 then
                some (fetched ++ [skip], Except.ok (acc ++ (c :: cs).filter
                  (fun cc => spec_window start_date end_date cc.created_at)))
              else paginate get start_date end_date validated_limit fuel (skip + 100)
                  (acc ++ (c :: cs).filter
                    (fun cc => spec_window start_date end_date cc.created_at))
                  (fetched ++ [skip]))) := by
  refine ⟨?_, ?_, ?_⟩
  · rintro s rfl hlt
    exact paginate_step_skip get (some s) end_date validated_limit fuel skip acc
      fetched c cs hget (by simp only [too_old, decide_eq_true_eq]; exact hlt)
  · rintro e hold rfl hgt
    exact paginate_step_stop get start_date (some e) validated_limit fuel skip acc
      fetched c cs hget hold (by simp only [too_new, decide_eq_true_eq]; exact hgt)
  · intro hold hnew
    rw [paginate_step_filter get start_date end_date validated_limit fuel skip acc
      fetched c cs hget hold hnew]
    simp only [window_keep_eq_spec_window]

/-- Witness for C2: the three branches at concrete one-comment batches
(a too-old batch under start_date 100, a too-new batch over end_date 100,
and an in-window batch for the window [0, 100]). -/
theorem claim_C2_witness :
    paginate (fun sk => if sk = 0 then Except.ok [⟨"a", "u", "t", 0⟩] else Except.ok [])
        (some 100) none 5 2 0 [] []
      = paginate (fun sk => if sk = 0 then Except.ok [⟨"a", "u", "t", 0⟩] else Except.ok [])
          (some 100) none 5 1 100 [] [0]
      ∧ paginate (fun sk => if sk = 0 then Except.ok [⟨"b", "u", "t", 200⟩] else Except.ok [])
          none (some 100) 5 2 0 [] []
        = some ([0], Except.ok [])
      ∧ paginate (fun sk => if sk = 0 then Except.ok [⟨"d", "u", "t", 50⟩] else Except.ok [])
          (some 0) (some 100) 5 2 0 [] []
        = some ([0, 100], Except.ok [⟨"d", "u", "t", 50⟩]) := by
  refine ⟨?_, ?_, ?_⟩
  · exact (claim_C2 _ (some 100) none 5 1 0 [] [] ⟨"a", "u", "t", 0⟩ [] rfl).1
      100 rfl (by decide)
  · exact (claim_C2 _ none (some 100) 5 1 0 [] [] ⟨"b", "u", "t", 200⟩ [] rfl).2.1
      100 rfl rfl (by decide)
  · have h := (claim_C2
      (fun sk => if sk = 0 then Except.ok [⟨"d", "u", "t", 50⟩] else Except.ok [])
      (some 0) (some 100) 5 1 0 [] [] ⟨"d", "u", "t", 50⟩ [] rfl).2.2
      (by decide) (by decide)
    rw [h]
    rfl

/-- C3: in the windowed path, once the accumulator of matching comments
reaches or exceeds the validated limit no further batch is fetched, and the
returned value is exactly the first limit accumulated comments in arrival
order, each scored by the Sentiment Scorer. Part 1: at any loop state, when
the filtered batch brings the accumulator to the limit or beyond the loop
returns at once, the trace showing no fetch past the current offset.
Part 2: any successful loop exit leaves the windowed fetch returning the
scored take of the accumulated matches, of length min limit matches.
Part 3: in particular, a first batch entirely inside the window with at
least limit comments gives exactly one upstream fetch (trace [0]) and
exactly limit scored comments in original order. -/
theorem claim_C3 (get : Nat → Except String (List CommentBase))
    (start_date end_date : Option Int) (validated_limit : Nat)
    (fn : String → Except String Rat) (key : String → String) (now ttl : Int)
    (cache : Cache) (fuel : Nat) :
    (∀ (skip : Nat) (acc : List CommentBase) (fetched : List Nat)
        (c : CommentBase) (cs : List CommentBase),
        get skip = Except.ok (c :: cs) →
        too_old start_date (cs.getLastD c).created_at = false →
        too_new end_date c.created_at = false →
        validated_limit ≤ (acc ++ (c :: cs).filter
          (fun cc => window_keep start_date end_date cc.created_at)).length →
        paginate get start_date end_date validated_limit (fuel + 1) skip acc fetched
          = some (fetched ++ [skip], Except.ok (acc ++ (c :: cs).filter
              (fun cc => window_keep start_date end_date cc.created_at))))
      ∧ (∀ (tr : List Nat) (acc2 : List CommentBase),
          paginate get start_date end_date validated_limit fuel 0 [] []
              = some (tr, Except.ok acc2) →
          fetch_with_date_aware_pagination get start_date end_date validated_limit
              fn key now ttl cache fuel
            = some (tr, Except.ok (analyze_comments_sentiment fn key now ttl
                (acc2.take validated_limit) cache))
            ∧ (analyze_comments_sentiment fn key now ttl
                (acc2.take validated_limit) cache).1.length
              = min validated_limit acc2.length)
      ∧ (∀ batch : List CommentBase, 0 < validated_limit →
          get 0 = Except.ok batch →
          (∀ cmt ∈ batch, spec_window start_date end_date cmt.created_at = true) →
          validated_limit ≤ batch.length →
          fetch_with_date_aware_pagination get start_date end_date validated_limit
              fn key now ttl cache (fuel + 1)
            = some ([0], Except.ok (analyze_comments_sentiment fn key now ttl
                (batch.take validated_limit) cache))
            ∧ (analyze_comments_sentiment fn key now ttl
                (batch.take validated_limit) cache).1.length = validated_limit) := by
  refine ⟨?_, ?_, ?_⟩
  · intro skip acc fetched c cs hget hold hnew hfull
    rw [paginate_step_filter get start_date end_date validated_limit fuel skip acc
      fetched c cs hget hold hnew, if_pos hfull]
  · intro tr acc2 hloop
    constructor
    · unfold fetch_with_date_aware_pagination
      rw [hloop]
    · rw [analyze_comments_sentiment_length, List.length_take]
  · intro batch hpos hget hwin hlen
    obtain ⟨c, cs, rfl⟩ : ∃ c cs, batch = c :: cs := by
      cases batch with
      | nil => simp at hlen; omega
      | cons c cs => exact ⟨c, cs, rfl⟩
    have hlast : cs.getLastD c ∈ c :: cs := List.getLastD_mem_cons cs c
    have hold : too_old start_date (cs.getLastD c).created_at = false :=
      spec_window_not_too_old start_date end_date _ (hwin _ hlast)
    have hnew : too_new end_date c.created_at = false :=
      spec_window_not_too_new start_date end_date _
        (hwin c (List.mem_cons_self c cs))
    have hfilter : (c :: cs).filter
        (fun cc => window_keep start_date end_date cc.created_at) = c :: cs := by
      refine List.filter_eq_self.mpr ?_
      intro a ha
      rw [window_keep_eq_spec_window]
      exact hwin a ha
    have hloop : paginate get start_date end_date validated_limit (fuel + 1) 0 [] []
        = some ([0], Except.ok (c :: cs)) := by
      rw [paginate_step_filter get start_date end_date validated_limit fuel 0 [] []
        c cs hget hold hnew, hfilter]
      simp only [List.nil_append]
      rw [if_pos hlen]
    constructor
    · unfold fetch_with_date_aware_pagination
      rw [hloop]
    · rw [analyze_comments_sentiment_length, List.length_take]
      omega

/-- The concrete first batch for the C3 witness: fifty comments all dated
inside the window. -/
def fifty_batch : List CommentBase := List.replicate 50 ⟨"c", "u", "great", 5⟩

/-- Witness for C3: limit 10 against a first batch of 50 in-window comments:
the loop stops after the single fetch at offset 0 with all fifty matches,
and the fetch returns exactly 10 scored comments, the scored take of the
matches. Exercises all three parts of the theorem concretely. -/
theorem claim_C3_witness :
    fetch_with_date_aware_pagination
        (fun sk => if sk = 0 then Except.ok fifty_batch else Except.ok [])
        (some 0) (some 10) 10 (fun _ => Except.ok 1) (fun t => t) 0 3600 [] 1
      = some ([0], Except.ok (analyze_comments_sentiment (fun _ => Except.ok 1)
          (fun t => t) 0 3600 (fifty_batch.take 10) []))
      ∧ (analyze_comments_sentiment (fun _ => Except.ok 1) (fun t => t) 0 3600
          (fifty_batch.take 10) []).1.length = 10
      ∧ paginate (fun sk => if sk = 0 then Except.ok fifty_batch else Except.ok [])
          (some 0) (some 10) 10 1 0 [] []
        = some ([0], Except.ok fifty_batch)
      ∧ (analyze_comments_sentiment (fun _ => Except.ok 1) (fun t => t) 0 3600
          (fifty_batch.take 10) []).1.length = min 10 fifty_batch.length := by
  have h0 := claim_C3 (fun sk => if sk = 0 then Except.ok fifty_batch else Except.ok [])
    (some 0) (some 10) 10 (fun _ => Except.ok 1) (fun t => t) 0 3600 [] 0
  have h1 := claim_C3 (fun sk => if sk = 0 then Except.ok fifty_batch else Except.ok [])
    (some 0) (some 10) 10 (fun _ => Except.ok 1) (fun t => t) 0 3600 [] 1
  have hpart3 := h0.2.2 fifty_batch (by decide) rfl (by decide) (by decide)
  have hpart1 := h0.1 0 [] [] ⟨"c", "u", "great", 5⟩
    (List.replicate 49 ⟨"c", "u", "great", 5⟩) rfl (by decide) (by decide) (by decide)
  have hpart2 := h1.2.1 [0] fifty_batch (hpart1.trans rfl)
  exact ⟨hpart3.1, hpart3.2, hpart1.trans rfl, hpart2.2⟩

/-- C4: an upstream failure mid-loop in the windowed path stops the loop and
degrades to the partial accumulation when matches have been accumulated, and
propagates the failure when none have; the partial accumulation flows out of
the windowed fetch truncated to the limit and scored, while a loop failure
flows out as the error itself. -/
theorem claim_C4 (get : Nat → Except String (List CommentBase))
    (start_date end_date : Option Int) (validated_limit fuel skip : Nat)
    (acc : List CommentBase) (fetched : List Nat) (err : String)
    (fn : String → Except String Rat) (key : String → String) (now ttl : Int)
    (cache : Cache) :
    (get skip = Except.error err → acc ≠ [] →
        paginate get start_date end_date validated_limit (fuel + 1) skip acc fetched
          = some (fetched ++ [skip], Except.ok acc))
      ∧ (get skip = Except.error err → acc = [] →
          paginate get start_date end_date validated_limit (fuel + 1) skip acc fetched
            = some (fetched ++ [skip], Except.error err))
      ∧ (∀ (tr : List Nat) (acc2 : List CommentBase),
          paginate get start_date end_date validated_limit fuel 0 [] []
              = some (tr, Except.ok acc2) →
          fetch_with_date_aware_pagination get start_date end_date validated_limit
              fn key now ttl cache fuel
            = some (tr, Except.ok (analyze_comments_sentiment fn key now ttl
                (acc2.take validated_limit) cache)))
      ∧ (∀ tr : List Nat,
          paginate get start_date end_date validated_limit fuel 0 [] []
              = some (tr, Except.error err) →
          fetch_with_date_aware_pagination get start_date end_date validated_limit
              fn key now ttl cache fuel
            = some (tr, Except.error err)) := by
  refine ⟨?_, ?_, ?_, ?_⟩
  · intro hget hne
    rw [paginate_step_error get start_date end_date validated_limit fuel skip acc
      fetched err hget, if_neg (by simp [hne])]
  · rintro hget rfl
    rw [paginate_step_error get start_date end_date validated_limit fuel skip []
      fetched err hget]
    rfl
  · intro tr acc2 hloop
    unfold fetch_with_date_aware_pagination
    rw [hloop]
  · intro tr hloop
    unfold fetch_with_date_aware_pagination
    rw [hloop]

/-- Witness for C4: an upstream that serves one in-window comment at offset
0 and fails at offset 100 yields the scored partial result, and an upstream
that fails at once propagates its error. -/
theorem claim_C4_witness :
    paginate (fun sk => if sk = 0 then Except.ok [⟨"p", "u", "t", 50⟩]
        else Except.error "down")
        (some 0) (some 100) 5 2 100 [⟨"p", "u", "t", 50⟩] [0]
      = some ([0, 100], Except.ok [⟨"p", "u", "t", 50⟩])
      ∧ paginate (fun _ => Except.error "down") none none 5 1 0 [] []
        = some ([0], Except.error "down")
      ∧ fetch_with_date_aware_pagination
          (fun sk => if sk = 0 then Except.ok [⟨"p", "u", "t", 50⟩]
            else Except.error "down")
          (some 0) (some 100) 5 (fun _ => Except.ok 1) (fun t => t) 0 3600 [] 2
        = some ([0, 100], Except.ok (analyze_comments_sentiment
            (fun _ => Except.ok 1) (fun t => t) 0 3600
            ([⟨"p", "u", "t", 50⟩].take 5) []))
      ∧ fetch_with_date_aware_pagination (fun _ => Except.error "down")
          none none 5 (fun _ => Except.ok 1) (fun t => t) 0 3600 [] 1
        = some ([0], Except.error "down") := by
  refine ⟨?_, ?_, ?_, ?_⟩
  · exact (claim_C4 (fun sk => if sk = 0 then Except.ok [⟨"p", "u", "t", 50⟩]
      else Except.error "down") (some 0) (some 100) 5 1 100 [⟨"p", "u", "t", 50⟩]
      [0] "down" (fun _ => Except.ok 1) (fun t => t) 0 3600 []).1 rfl (by decide)
  · exact (claim_C4 (fun _ => Except.error "down") none none 5 0 0 [] [] "down"
      (fun _ => Except.ok 1) (fun t => t) 0 3600 []).2.1 rfl rfl
  · exact (claim_C4 (fun sk => if sk = 0 then Except.ok [⟨"p", "u", "t", 50⟩]
      else Except.error "down") (some 0) (some 100) 5 2 0 [] [] "down"
      (fun _ => Except.ok 1) (fun t => t) 0 3600 []).2.2.1 [0, 100]
      [⟨"p", "u", "t", 50⟩] rfl
  · exact (claim_C4 (fun _ => Except.error "down") none none 5 1 0 [] [] "down"
      (fun _ => Except.ok 1) (fun t => t) 0 3600 []).2.2.2 [0] rfl

/-- An upstream for which every batch up to offset 10100 is non-empty and
dated entirely before the query window (created_at 0 against start_date
1000), and exhausted afterwards. -/
def bug_get : Nat → Except String (List CommentBase) :=
  fun skip => if skip ≤ 10100 then Except.ok [⟨"o", "u", "t", 0⟩] else Except.ok []

/-- The fetch trace the loop produces on bug_get: offsets 0, 100, ..., 10200. -/
def bug_trace : List Nat := (List.range 103).map (fun i => i * 100)

set_option maxRecDepth 4000

/-- C1 fails on the code: the skip-ahead branch advances the offset and
continues without running the safety check, so on a windowed query whose
batches are all before start_date the loop issues fetches at offsets 10100
and 10200 — both beyond 10000 — and issues 103 batch fetches in total,
more than the claimed bound of 101. (The accumulated matches are still
returned rather than an error, as the claim says.) -/
theorem claim_C1 :
    paginate bug_get (some 1000) none 25 200 0 [] []
      = some (bug_trace, Except.ok [])
      ∧ bug_trace.length = 103
      ∧ 101 < bug_trace.length
      ∧ 10100 ∈ bug_trace
      ∧ 10200 ∈ bug_trace := by
  refine ⟨by rfl, by rfl, by decide, by decide, by decide⟩

/-! ## Request orchestration
(SentimentService._fetch_and_analyze_comments and
SentimentService.analyze_subfeddit_sentiment)

Here get takes the skip offset and the page limit (the fast path requests
exactly the validated limit at offset 0, the windowed loop pages with
limit 100); info is the result the Upstream Client would return from
get_subfeddit_info; parseDate is the external dateutil parser. The Bool in
the result records whether the subfeddit metadata lookup was performed. -/

/-- SentimentService._fetch_and_analyze_comments: fast path (no date bound
set) of one fetch at the validated limit, empty result short-circuiting to
an empty list; otherwise the windowed date-aware pagination. -/
def fetch_and_analyze_comments (get : Nat → Nat → Except String (List CommentBase))
    (start_date end_date : Option Int) (validated_limit : Nat)
    (fn : String → Except String Rat) (key : String → String) (now ttl : Int)
    (cache : Cache) (fuel : Nat) :
    Option (Except String (List CommentWithSentiment × Cache)) :=
  if start_date.isNone && end_date.isNone then
    match get 0 validated_limit with
    | Except.error e => some (Except.error e)
    | Except.ok [] => some (Except.ok ([], cache))
    | Except.ok (c :: cs) =>
      some (Except.ok (analyze_comments_sentiment fn key now ttl (c :: cs) cache))
  else
    match fetch_with_date_aware_pagination (fun skip => get skip 100) start_date
        end_date validated_limit fn key now ttl cache fuel with
    | none => none
    | some (_, Except.error e) => some (Except.error e)
    | some (_, Except.ok r) => some (Except.ok r)

/-- SentimentService.analyze_subfeddit_sentiment: validate, parse dates,
fetch and score, short-circuit an empty result to a zero-count response
without a metadata lookup, otherwise optionally sort, attach the metadata
and set total_comments to the length of the final list. -/
def analyze_subfeddit_sentiment (get : Nat → Nat → Except String (List CommentBase))
    (info : Option SubfedditInfo) (parseDate : String → Except String Int)
    (fn : String → Except String Rat) (key : String → String) (now ttl : Int)
    (cache : Cache) (subfeddit_name : String) (limit : Option Int)
    (start_date end_date sort_order : Option String) (fuel : Nat) :
    Option (Except String (SentimentAnalysisResponse × Cache × Bool)) :=
  match validate_parameters limit sort_order with
  | Except.error e => some (Except.error e)
  | Except.ok validated_limit =>
    match parse_date_parameters parseDate start_date end_date with
    | Except.error e => some (Except.error e)
    | Except.ok (sd, ed) =>
      match fetch_and_analyze_comments get sd ed validated_limit.toNat fn key
          now ttl cache fuel with
      | none => none
      | some (Except.error e) => some (Except.error e)
      | some (Except.ok (cws, cache2)) =>
        if cws.isEmpty then
          some (Except.ok (⟨subfeddit_name, 0, [], none⟩, cache2, false))
        else
          some (Except.ok (⟨subfeddit_name, (apply_sort cws sort_order).length,
            apply_sort cws sort_order, info⟩, cache2, true))

/-- C9: every successful response satisfies total_comments = length of its
comment sequence; and when the fetch-and-score step yields an empty list the
response has count 0, an empty comment list and absent subfeddit metadata,
with no metadata lookup performed. -/
theorem claim_C9 (get : Nat → Nat → Except String (List CommentBase))
    (info : Option SubfedditInfo) (parseDate : String → Except String Int)
    (fn : String → Except String Rat) (key : String → String) (now ttl : Int)
    (cache : Cache) (subfeddit_name : String) (limit : Option Int)
    (start_date end_date sort_order : Option String) (fuel : Nat) :
    (∀ (resp : SentimentAnalysisResponse) (cache2 : Cache) (looked : Bool),
        analyze_subfeddit_sentiment get info parseDate fn key now ttl cache
            subfeddit_name limit start_date end_date sort_order fuel
          = some (Except.ok (resp, cache2, looked)) →
        resp.total_comments = resp.comments.length)
      ∧ (∀ (vlimit : Int) (sd ed : Option Int) (cache2 : Cache),
          validate_parameters limit sort_order = Except.ok vlimit →
          parse_date_parameters parseDate start_date end_date
              = Except.ok (sd, ed) →
          fetch_and_analyze_comments get sd ed vlimit.toNat fn key now ttl
              cache fuel
            = some (Except.ok ([], cache2)) →
          analyze_subfeddit_sentiment get info parseDate fn key now ttl cache
              subfeddit_name limit start_date end_date sort_order fuel
            = some (Except.ok (⟨subfeddit_name, 0, [], none⟩, cache2, false))) := by
  constructor
  · intro resp cache2 looked h
    unfold analyze_subfeddit_sentiment at h
    repeat' split at h
    all_goals simp_all
    all_goals obtain ⟨hr, -, -⟩ := h
    all_goals rw [← hr]
    all_goals rfl
  · intro vlimit sd ed cache2 hval hparse hfetch
    simp only [analyze_subfeddit_sentiment, hval, hparse, hfetch, List.isEmpty_nil,
      if_true]

/-- Witness for C9: an upstream with no comments yields the zero-count
response with no metadata lookup, whose count equals its list length. -/
theorem claim_C9_witness :
    analyze_subfeddit_sentiment (fun _s _l => Except.ok []) none
        (fun _ => Except.ok 0) (fun _ => Except.ok 1) (fun t => t) 0 3600 []
        "sub" none none none none 1
      = some (Except.ok (⟨"sub", 0, [], none⟩, [], false))
      ∧ (⟨"sub", 0, [], none⟩ : SentimentAnalysisResponse).total_comments
        = (⟨"sub", 0, [], none⟩ : SentimentAnalysisResponse).comments.length := by
  have h := claim_C9 (fun _s _l => Except.ok []) none (fun _ => Except.ok 0)
    (fun _ => Except.ok 1) (fun t => t) 0 3600 [] "sub" none none none none 1
  refine ⟨h.2 25 none none [] rfl rfl rfl, ?_⟩
  exact h.1 ⟨"sub", 0, [], none⟩ [] false (h.2 25 none none [] rfl rfl rfl)

end Feddit
